import Mathlib

/-!
Shallow embedding of `src/main.js` from GKalmus/webgpu-rotating-cube.

The program is a straight-line WebGPU setup (lines 1-99 and 149) followed by a
per-frame callback `frame` (lines 111-148).  We model

* the module-level mutable variables (`canvas.width`, `canvas.height`,
  `depthTexture`, `aspect`, `projectionMatrix`, `modelViewProjectionMatrix`)
  as a record `ProgState`;
* the wgpu-matrix calls symbolically, as an expression type `Mat4` that
  records exactly which library operations the program performs;
* observable interactions with the host (console, GPU device, queue,
  requestAnimationFrame) as a trace of `Effect`s;
* the setup (which may fail at any `await`ed / throwing GPU call, with no
  handler in the source) as an `Except`-valued function driven by an oracle
  saying which GPU operations succeed;
* `frame` as a pure function from a state and the per-invocation host inputs
  (`canvas.clientWidth`, `canvas.clientHeight`, `Date.now()`) to the new
  state and the list of effects performed, in program order.

JavaScript numbers are modelled as exact rationals `ℚ`; the claims under
study depend only on equality and zero tests of these quantities.
-/

/-- Scalar expressions that the program feeds to wgpu-matrix: rational
constants, `Math.PI`, `Math.sin`/`Math.cos` of a rational time, and the
products/quotients the source forms from them (line 98: `(2 * Math.PI) / 5`). -/
inductive Scalar where
  | q (x : ℚ)
  | pi
  | sin (t : ℚ)
  | cos (t : ℚ)
  | mul (a b : Scalar)
  | div (a b : Scalar)
deriving DecidableEq

/-- Argument of `vec3.fromValues` (lines 103 and 105). -/
structure Vec3 where
  x : Scalar
  y : Scalar
  z : Scalar
deriving DecidableEq

/-- Symbolic record of the wgpu-matrix mat4 values the program constructs.
`create` is `mat4.create()` (line 99); the other constructors mirror the
library calls at lines 98 and 102-106, with the destination-aliasing of the
source expressed by rebinding. -/
inductive Mat4 where
  | create
  | identity
  | perspective (fovy : Scalar) (aspect : ℚ) (zNear zFar : ℚ)
  | translate (m : Mat4) (v : Vec3)
  | rotate (m : Mat4) (axis : Vec3) (angle : ℚ)
  | multiply (a b : Mat4)
deriving DecidableEq

/-- Number of `mat4.perspective` calls recorded in a symbolic matrix value. -/
def Mat4.perspectiveCount : Mat4 → ℕ
  | .create => 0
  | .identity => 0
  | .perspective _ _ _ _ => 1
  | .translate m _ => m.perspectiveCount
  | .rotate m _ _ => m.perspectiveCount
  | .multiply a b => a.perspectiveCount + b.perspectiveCount

/-- The two GPU buffers the program creates: `verticesBuffer` (line 33) and
`uniformBuffer` (line 71). -/
inductive BufferId where
  | vertices
  | uniform
deriving DecidableEq

/-- A GPU texture handle, identified by the size it was created with
(`device.createTexture size: [w, h]`, lines 64-68 and 120-124). -/
structure Texture where
  width : ℚ
  height : ℚ
deriving DecidableEq

/-- Commands recorded into the render pass encoder (lines 141-144). -/
inductive RenderCmd where
  | setPipeline
  | setBindGroup (index : ℕ)
  | setVertexBuffer (slot : ℕ) (buffer : BufferId)
  | draw (vertexCount : ℕ)
deriving DecidableEq

/-- A render pass as encoded from `renderPassDescriptor` (lines 82-95, with
the per-frame view reassignments at lines 126 and 135-137): the texture the
color attachment view comes from (`context.getCurrentTexture()`, sized like
the canvas), the texture the depth-stencil attachment view comes from, and
the recorded commands. -/
structure RenderPass where
  colorTexture : Texture
  depthTexture : Texture
  depthClearValue : ℚ
  cmds : List RenderCmd
deriving DecidableEq

/-- A finished command buffer (`commandEncoder.finish()`, line 146). -/
structure CommandBuffer where
  passes : List RenderPass
deriving DecidableEq

/-- Observable interactions with the host environment, in program order. -/
inductive Effect where
  | consoleError (msg : String)
  | requestAdapter
  | requestDevice
  | loadFile (path : String)
  | createShaderModule
  | configureContext
  | createBuffer (id : BufferId) (size : ℕ) (mappedAtCreation : Bool)
  | writeMappedRange (id : BufferId) (byteLength : ℕ)
  | unmapBuffer (id : BufferId)
  | createRenderPipeline
  | createTexture (width height : ℚ)
  | destroyTexture (t : Texture)
  | createBindGroup
  | writeBuffer (id : BufferId) (bufferOffset dataByteOffset dataByteLength : ℕ)
      (data : Mat4)
  | submit (buffers : List CommandBuffer)
  | requestAnimationFrame
deriving DecidableEq

/-- Modelled from the spec: the vertex count of the static cube geometry
imported from `/src/cube.js`, a file not present in the repository snapshot.
The spec describes "a static vertex array (position + UV per vertex, fixed at
compile time)" for a cube: 6 faces x 2 triangles x 3 vertices. -/
def cubeVertexCount : ℕ := 36

/-- Modelled from the spec: byte size of one vertex of the static cube
geometry from `/src/cube.js` (position float32x4 at offset
`cubePositionOffset`, UV float32x2 at offset `cubeUVOffset`). -/
def cubeVertexSize : ℕ := 40

/-- Modelled from the spec: `cubeVertexArray.byteLength` of the static
vertex array imported from `/src/cube.js`. -/
def cubeVertexArrayByteLength : ℕ := cubeVertexCount * cubeVertexSize

/-- Line 70: `const uniformBufferSize = 4 * 16`. -/
def uniformBufferSize : ℕ := 4 * 16

/-- Byte length of a wgpu-matrix `mat4`, a `Float32Array` of 16 elements
with 4 bytes per element; this is `transformationMatrix.byteLength` at
line 133. -/
def mat4ByteLength : ℕ := 16 * 4

/-- Byte offset of a wgpu-matrix `mat4` inside its backing buffer; a matrix
made by `mat4.create()` owns its whole buffer, so this is
`transformationMatrix.byteOffset` at line 132. -/
def mat4ByteOffset : ℕ := 0

/-- The module-level mutable variables of `main.js` (plus the constant
`devicePixelRatio` captured once at line 20, which `frame` reads). -/
structure ProgState where
  devicePixelRatio : ℚ
  canvasWidth : ℚ
  canvasHeight : ℚ
  depthTexture : Texture
  aspect : ℚ
  projectionMatrix : Mat4
  modelViewProjectionMatrix : Mat4
deriving DecidableEq

/-- Host-supplied values read by one invocation of `frame`:
`canvas.clientWidth`, `canvas.clientHeight` (lines 112-113) and
`Date.now()` (line 104). -/
structure FrameInput where
  clientWidth : ℚ
  clientHeight : ℚ
  dateNow : ℚ
deriving DecidableEq

/-- Host-supplied values read by the setup phase: whether `navigator.gpu`
exists (line 5), the canvas client size (lines 21-22), and
`window.devicePixelRatio` (line 20). -/
structure SetupInput where
  gpuAvailable : Bool
  clientWidth : ℚ
  clientHeight : ℚ
  devicePixelRatio : ℚ
deriving DecidableEq

/-- The fallible host/GPU operations of the setup phase, in source order.
Each is an `await`ed promise or a throwing creation call with no handler
around it. -/
inductive GpuOp where
  | requestAdapter
  | requestDevice
  | loadFile
  | createShaderModule
  | getContext
  | configureContext
  | createVerticesBuffer
  | createRenderPipeline
  | createDepthTexture
  | createUniformBuffer
  | createBindGroup
deriving DecidableEq

/-- The setup-phase fallible operations in the order the source performs
them (lines 9, 10, 12, 13, 18, 27, 33, 41, 64, 71, 76). -/
def setupOps : List GpuOp :=
  [.requestAdapter, .requestDevice, .loadFile, .createShaderModule, .getContext,
   .configureContext, .createVerticesBuffer, .createRenderPipeline,
   .createDepthTexture, .createUniformBuffer, .createBindGroup]

/-- Line 98: `mat4.perspective((2 * Math.PI) / 5, aspect, 1, 100.0)`. -/
def initialProjection (aspect : ℚ) : Mat4 :=
  Mat4.perspective (Scalar.div (Scalar.mul (Scalar.q 2) Scalar.pi) (Scalar.q 5))
    aspect 1 100

/-- The initial program state established by a successful setup:
lines 20-22 (canvas size), 64-68 (initial depth texture), 97-99 (aspect,
projection matrix, `mat4.create()`). -/
def setupState (inp : SetupInput) : ProgState :=
  let canvasWidth := inp.clientWidth * inp.devicePixelRatio
  let canvasHeight := inp.clientHeight * inp.devicePixelRatio
  let aspect := canvasWidth / canvasHeight
  { devicePixelRatio := inp.devicePixelRatio
    canvasWidth := canvasWidth
    canvasHeight := canvasHeight
    depthTexture := ⟨canvasWidth, canvasHeight⟩
    aspect := aspect
    projectionMatrix := initialProjection aspect
    modelViewProjectionMatrix := Mat4.create }

/-- The effect trace of a fully successful setup, in source order
(lines 5-7, 9, 10, 12, 13, 27, 33-39, 41, 64, 71, 76, 149). -/
def setupEffects (inp : SetupInput) : List Effect :=
  (if inp.gpuAvailable then []
   else [Effect.consoleError "WebGPU is not supported in this browser."]) ++
  [Effect.requestAdapter,
   Effect.requestDevice,
   Effect.loadFile "./shaders/cube.wgsl",
   Effect.createShaderModule,
   Effect.configureContext,
   Effect.createBuffer BufferId.vertices cubeVertexArrayByteLength true,
   Effect.writeMappedRange BufferId.vertices cubeVertexArrayByteLength,
   Effect.unmapBuffer BufferId.vertices,
   Effect.createRenderPipeline,
   Effect.createTexture (inp.clientWidth * inp.devicePixelRatio)
     (inp.clientHeight * inp.devicePixelRatio),
   Effect.createBuffer BufferId.uniform uniformBufferSize false,
   Effect.createBindGroup,
   Effect.requestAnimationFrame]

/-- Lines 1-99 and 149 of `main.js`: the straight-line setup.  `ok` says
which fallible GPU operations succeed; a failing one rejects/throws with no
handler in the source, which we model by propagating it as the `Except`
error.  The availability check of lines 5-7 only logs (its effect is part
of `setupEffects`); it never stops execution.  On success, returns the
initial `ProgState` and the effect trace. -/
def setup (ok : GpuOp → Bool) (inp : SetupInput) : Except GpuOp (ProgState × List Effect) :=
  if !ok .requestAdapter then .error .requestAdapter else    -- line 9
  if !ok .requestDevice then .error .requestDevice else      -- line 10
  if !ok .loadFile then .error .loadFile else                -- line 12
  if !ok .createShaderModule then .error .createShaderModule else  -- line 13
  if !ok .getContext then .error .getContext else            -- line 18
  if !ok .configureContext then .error .configureContext else      -- line 27
  if !ok .createVerticesBuffer then .error .createVerticesBuffer else  -- line 33
  if !ok .createRenderPipeline then .error .createRenderPipeline else  -- line 41
  if !ok .createDepthTexture then .error .createDepthTexture else      -- line 64
  if !ok .createUniformBuffer then .error .createUniformBuffer else    -- line 71
  if !ok .createBindGroup then .error .createBindGroup else            -- line 76
  .ok (setupState inp, setupEffects inp)

/-- Lines 101-109: `getTransformationMatrix`, as a pure function of the
`projectionMatrix` it reads and of `Date.now()`.  The `dst`-aliasing of the
wgpu-matrix calls is expressed by rebinding `viewMatrix`. -/
def getTransformationMatrix (projectionMatrix : Mat4) (dateNow : ℚ) : Mat4 :=
  let viewMatrix := Mat4.identity
  let viewMatrix := Mat4.translate viewMatrix ⟨Scalar.q 0, Scalar.q 0, Scalar.q (-4)⟩
  let now := dateNow / 1000
  let viewMatrix := Mat4.rotate viewMatrix ⟨Scalar.sin now, Scalar.cos now, Scalar.q 0⟩ 1
  Mat4.multiply projectionMatrix viewMatrix

/-- Line 112: `canvas.clientWidth * devicePixelRatio`. -/
def currentWidth (s : ProgState) (i : FrameInput) : ℚ :=
  i.clientWidth * s.devicePixelRatio

/-- Line 113: `canvas.clientHeight * devicePixelRatio`. -/
def currentHeight (s : ProgState) (i : FrameInput) : ℚ :=
  i.clientHeight * s.devicePixelRatio

/-- The condition of line 115.  The `!depthTexture` disjunct of the source
is omitted: in our model, as in every execution of the program, the variable
always holds a texture object (created at line 64 before `frame` can
run, reassigned only to fresh textures), and a JavaScript object is truthy,
so that disjunct is always false.  JavaScript number truthiness
(`currentWidth && currentHeight`) is nonzeroness. -/
def resizeNeeded (s : ProgState) (i : FrameInput) : Prop :=
  (currentWidth s i ≠ s.canvasWidth ∨ currentHeight s i ≠ s.canvasHeight) ∧
    currentWidth s i ≠ 0 ∧ currentHeight s i ≠ 0

instance (s : ProgState) (i : FrameInput) : Decidable (resizeNeeded s i) := by
  unfold resizeNeeded; infer_instance

/-- The commands recorded into the render pass, lines 141-144. -/
def frameCmds : List RenderCmd :=
  [RenderCmd.setPipeline, RenderCmd.setBindGroup 0,
   RenderCmd.setVertexBuffer 0 BufferId.vertices, RenderCmd.draw cubeVertexCount]

/-- Lines 115-125: the state after the conditional resize branch of
`frame` (lines 117-124 run exactly when the condition of line 115 holds). -/
def resizedState (s : ProgState) (i : FrameInput) : ProgState :=
  if resizeNeeded s i then
    { s with canvasWidth := currentWidth s i
             canvasHeight := currentHeight s i
             aspect := currentWidth s i / currentHeight s i
             depthTexture := ⟨currentWidth s i, currentHeight s i⟩ }
  else s

/-- Lines 115-125: the effects of the conditional resize branch of `frame`
(line 116 destroys the old depth texture, lines 120-124 create the new one). -/
def resizeEffects (s : ProgState) (i : FrameInput) : List Effect :=
  if resizeNeeded s i then
    [Effect.destroyTexture s.depthTexture,
     Effect.createTexture (currentWidth s i) (currentHeight s i)]
  else []

/-- Lines 111-148: one invocation of `frame`.  Returns the updated
module-level state and the effect trace, in program order. -/
def frame (s : ProgState) (i : FrameInput) : ProgState × List Effect :=
  let s1 := resizedState s i
  -- line 127: recompute the model-view-projection matrix
  let transformationMatrix := getTransformationMatrix s1.projectionMatrix i.dateNow
  let s2 := { s1 with modelViewProjectionMatrix := transformationMatrix }
  -- lines 126 and 135-137: the views of the render pass descriptor
  let pass : RenderPass :=
    { colorTexture := ⟨s2.canvasWidth, s2.canvasHeight⟩
      depthTexture := s2.depthTexture
      depthClearValue := 1
      cmds := frameCmds }
  (s2,
   resizeEffects s i ++
   [Effect.writeBuffer BufferId.uniform 0 mat4ByteOffset mat4ByteLength
      transformationMatrix,                                   -- lines 128-134
    Effect.submit [⟨[pass]⟩],                                 -- lines 139-146
    Effect.requestAnimationFrame])                            -- line 147

/-- States reachable in a run of the program: the state produced by a
successful setup, and anything obtained from it by invocations of `frame`. -/
inductive Reachable (ok : GpuOp → Bool) (inp : SetupInput) : ProgState → Prop where
  | init (s : ProgState) (effs : List Effect) :
      setup ok inp = .ok (s, effs) → Reachable ok inp s
  | step (s : ProgState) (i : FrameInput) :
      Reachable ok inp s → Reachable ok inp (frame s i).1

/-- The command-buffer lists passed to `queue.submit` in a trace. -/
def submitsOf (effs : List Effect) : List (List CommandBuffer) :=
  effs.filterMap fun e =>
    match e with
    | .submit bs => some bs
    | _ => none

/-- The `writeBuffer` calls targeting the uniform buffer in a trace:
(bufferOffset, dataByteOffset, dataByteLength, data). -/
def uniformWrites (effs : List Effect) : List (ℕ × ℕ × ℕ × Mat4) :=
  effs.filterMap fun e =>
    match e with
    | .writeBuffer BufferId.uniform a b c m => some (a, b, c, m)
    | _ => none

/-- Effects that write data into the given buffer (mapped-range writes and
queue writes); binding a buffer to the pass is not a write. -/
def writesTo (id : BufferId) (e : Effect) : Bool :=
  match e with
  | .writeMappedRange b _ => b == id
  | .writeBuffer b _ _ _ _ => b == id
  | _ => false

/-- The vertex counts of the `draw` calls recorded in a command buffer. -/
def drawsOf (cb : CommandBuffer) : List ℕ :=
  (cb.passes.map fun p =>
    p.cmds.filterMap fun c =>
      match c with
      | .draw n => some n
      | _ => none).flatten

/-- The sizes of the textures created in a trace. -/
def texturesCreated (effs : List Effect) : List (ℚ × ℚ) :=
  effs.filterMap fun e =>
    match e with
    | .createTexture w h => some (w, h)
    | _ => none

/-- The textures destroyed in a trace. -/
def texturesDestroyed (effs : List Effect) : List Texture :=
  effs.filterMap fun e =>
    match e with
    | .destroyTexture t => some t
    | _ => none

/-- Number of `requestAnimationFrame` calls in a trace. -/
def rafCount (effs : List Effect) : ℕ :=
  (effs.filter fun e =>
    match e with
    | .requestAnimationFrame => true
    | _ => false).length

/-- Number of pending animation callbacks after running `frame` on a list of
inputs, starting from `pending` pending callbacks: each invocation consumes
one pending callback and schedules however many `requestAnimationFrame`
calls its trace contains. -/
def runPending (pending : ℕ) (s : ProgState) : List FrameInput → ℕ
  | [] => pending
  | i :: rest => runPending (pending - 1 + rafCount (frame s i).2) (frame s i).1 rest

/-- The first setup operation the oracle fails, if any. -/
def firstFailing (ok : GpuOp → Bool) : Option GpuOp :=
  setupOps.find? fun op => !ok op

/-- The render passes encoded into the command buffers passed to
`queue.submit` in a trace. -/
def passesSubmitted (effs : List Effect) : List RenderPass :=
  ((submitsOf effs).flatten.map fun cb => cb.passes).flatten

/-- Effects that create one of the GPU resources of the program (buffers,
textures, pipeline, bind group, shader module). -/
def isResourceCreation (e : Effect) : Bool :=
  match e with
  | .createBuffer _ _ _ => true
  | .createTexture _ _ => true
  | .createRenderPipeline => true
  | .createBindGroup => true
  | .createShaderModule => true
  | _ => false

/-- The depth texture the state holds always has the size of the canvas. -/
def depthMatchesCanvas (s : ProgState) : Prop :=
  s.depthTexture = ⟨s.canvasWidth, s.canvasHeight⟩

lemma resizedState_projectionMatrix (s : ProgState) (i : FrameInput) :
    (resizedState s i).projectionMatrix = s.projectionMatrix := by
  unfold resizedState; split <;> rfl

lemma resizedState_devicePixelRatio (s : ProgState) (i : FrameInput) :
    (resizedState s i).devicePixelRatio = s.devicePixelRatio := by
  unfold resizedState; split <;> rfl

lemma frame_fst (s : ProgState) (i : FrameInput) :
    (frame s i).1 = { resizedState s i with
      modelViewProjectionMatrix :=
        getTransformationMatrix (resizedState s i).projectionMatrix i.dateNow } := rfl

lemma frame_snd (s : ProgState) (i : FrameInput) :
    (frame s i).2 = resizeEffects s i ++
      [Effect.writeBuffer BufferId.uniform 0 mat4ByteOffset mat4ByteLength
         (getTransformationMatrix (resizedState s i).projectionMatrix i.dateNow),
       Effect.submit [⟨[⟨⟨(resizedState s i).canvasWidth, (resizedState s i).canvasHeight⟩,
          (resizedState s i).depthTexture, 1, frameCmds⟩]⟩],
       Effect.requestAnimationFrame] := rfl

lemma setup_eq (ok : GpuOp → Bool) (inp : SetupInput) :
    setup ok inp = (match firstFailing ok with
      | none => .ok (setupState inp, setupEffects inp)
      | some op => .error op) := by
  unfold setup firstFailing setupOps
  cases h1 : ok GpuOp.requestAdapter
  · simp [List.find?, h1]
  · cases h2 : ok GpuOp.requestDevice
    · simp [List.find?, h1, h2]
    · cases h3 : ok GpuOp.loadFile
      · simp [List.find?, h1, h2, h3]
      · cases h4 : ok GpuOp.createShaderModule
        · simp [List.find?, h1, h2, h3, h4]
        · cases h5 : ok GpuOp.getContext
          · simp [List.find?, h1, h2, h3, h4, h5]
          · cases h6 : ok GpuOp.configureContext
            · simp [List.find?, h1, h2, h3, h4, h5, h6]
            · cases h7 : ok GpuOp.createVerticesBuffer
              · simp [List.find?, h1, h2, h3, h4, h5, h6, h7]
              · cases h8 : ok GpuOp.createRenderPipeline
                · simp [List.find?, h1, h2, h3, h4, h5, h6, h7, h8]
                · cases h9 : ok GpuOp.createDepthTexture
                  · simp [List.find?, h1, h2, h3, h4, h5, h6, h7, h8, h9]
                  · cases h10 : ok GpuOp.createUniformBuffer
                    · simp [List.find?, h1, h2, h3, h4, h5, h6, h7, h8, h9, h10]
                    · cases h11 : ok GpuOp.createBindGroup
                      · simp [List.find?, h1, h2, h3, h4, h5, h6, h7, h8, h9, h10, h11]
                      · simp [List.find?, h1, h2, h3, h4, h5, h6, h7, h8, h9, h10, h11]

lemma setup_ok_inv (ok : GpuOp → Bool) (inp : SetupInput) (s : ProgState)
    (effs : List Effect) (h : setup ok inp = .ok (s, effs)) :
    s = setupState inp ∧ effs = setupEffects inp := by
  rw [setup_eq] at h
  cases hf : firstFailing ok <;> rw [hf] at h
  · rw [Except.ok.injEq, Prod.mk.injEq] at h
    exact ⟨h.1.symm, h.2.symm⟩
  · exact Except.noConfusion h

lemma setupState_depthMatchesCanvas (inp : SetupInput) :
    depthMatchesCanvas (setupState inp) := rfl

lemma resizedState_depthMatchesCanvas (s : ProgState) (i : FrameInput)
    (h : depthMatchesCanvas s) : depthMatchesCanvas (resizedState s i) := by
  unfold resizedState
  split
  · rfl
  · exact h

lemma frame_depthMatchesCanvas (s : ProgState) (i : FrameInput)
    (h : depthMatchesCanvas s) : depthMatchesCanvas (frame s i).1 := by
  rw [frame_fst]
  exact resizedState_depthMatchesCanvas s i h

lemma reachable_depthMatchesCanvas (ok : GpuOp → Bool) (inp : SetupInput)
    (s : ProgState) (h : Reachable ok inp s) : depthMatchesCanvas s := by
  induction h with
  | init s effs hset =>
      obtain ⟨hs, _⟩ := setup_ok_inv ok inp s effs hset
      rw [hs]
      exact setupState_depthMatchesCanvas inp
  | step s i _ ih => exact frame_depthMatchesCanvas s i ih

/-- C1: At the moment the render pass of each frame is encoded, the depth
texture size equals the current canvas size: for every invocation of
`frame` (from any state reachable in a run of the program), the render pass
submitted that frame uses a depth-stencil attachment view created from a
depth texture whose dimensions are exactly the current canvas width and
height. -/
theorem frame_depth_attachment_matches_canvas (ok : GpuOp → Bool) (inp : SetupInput)
    (s : ProgState) (hs : Reachable ok inp s) (i : FrameInput) :
    (passesSubmitted (frame s i).2).map (fun p => p.depthTexture)
      = [⟨(frame s i).1.canvasWidth, (frame s i).1.canvasHeight⟩] := by
  have hinv : depthMatchesCanvas (resizedState s i) :=
    resizedState_depthMatchesCanvas s i (reachable_depthMatchesCanvas ok inp s hs)
  unfold depthMatchesCanvas at hinv
  rw [frame_snd, frame_fst]
  unfold passesSubmitted submitsOf resizeEffects
  split <;> simp [hinv]

/-- C1 witness: a run that sets up at client size 100x100 with device pixel
ratio 1 and runs one frame at the same client size submits one render pass
whose depth attachment texture is 100x100, the canvas size. -/
theorem frame_depth_attachment_matches_canvas_witness :
    (passesSubmitted (frame (setupState ⟨true, 100, 100, 1⟩) ⟨100, 100, 0⟩).2).map
        (fun p => p.depthTexture) = [⟨100, 100⟩] := by
  have h := frame_depth_attachment_matches_canvas (fun _ => true) ⟨true, 100, 100, 1⟩
    (setupState ⟨true, 100, 100, 1⟩) (Reachable.init _ (setupEffects ⟨true, 100, 100, 1⟩) rfl)
    ⟨100, 100, 0⟩
  rw [h, frame_fst]
  simp [resizedState, resizeNeeded, currentWidth, currentHeight, setupState]

/-- C4: For every invocation of `frame`, the depth texture is recreated if
and only if the canvas size needs to change (the client size times
`devicePixelRatio` differs from the current canvas size, with both
dimensions nonzero); when it is recreated, the old depth texture is
destroyed first and the canvas size is set to the new size; otherwise the
depth texture, `canvas.width` and `canvas.height` are left unchanged. -/
theorem frame_resizes_iff_size_change (s : ProgState) (i : FrameInput) :
    ∃ rest : List Effect,
      (frame s i).2 = (if (currentWidth s i ≠ s.canvasWidth ∨ currentHeight s i ≠ s.canvasHeight) ∧
            currentWidth s i ≠ 0 ∧ currentHeight s i ≠ 0
          then [Effect.destroyTexture s.depthTexture,
                Effect.createTexture (currentWidth s i) (currentHeight s i)]
          else []) ++ rest
      ∧ texturesCreated rest = []
      ∧ texturesDestroyed rest = []
      ∧ (frame s i).1.canvasWidth = (if resizeNeeded s i then currentWidth s i else s.canvasWidth)
      ∧ (frame s i).1.canvasHeight = (if resizeNeeded s i then currentHeight s i else s.canvasHeight)
      ∧ (frame s i).1.depthTexture = (if resizeNeeded s i
          then ⟨currentWidth s i, currentHeight s i⟩ else s.depthTexture) := by
  refine ⟨[Effect.writeBuffer BufferId.uniform 0 mat4ByteOffset mat4ByteLength
      (getTransformationMatrix (resizedState s i).projectionMatrix i.dateNow),
    Effect.submit [⟨[⟨⟨(resizedState s i).canvasWidth, (resizedState s i).canvasHeight⟩,
       (resizedState s i).depthTexture, 1, frameCmds⟩]⟩],
    Effect.requestAnimationFrame], ?_, ?_, ?_, ?_, ?_, ?_⟩
  · rw [frame_snd]
    unfold resizeEffects resizeNeeded
    rfl
  · simp [texturesCreated]
  · simp [texturesDestroyed]
  · rw [frame_fst]; unfold resizedState; split <;> rfl
  · rw [frame_fst]; unfold resizedState; split <;> rfl
  · rw [frame_fst]; unfold resizedState; split <;> rfl

/-- C6: Resizing never crashes the per-frame callback: for every invocation
of `frame`, if either scaled client dimension (`clientWidth` or
`clientHeight` times `devicePixelRatio`) is zero, the resize branch is
skipped: no depth texture (in particular no zero-sized one) is created, and
the previous canvas size and depth texture remain in use. -/
theorem frame_zero_client_size_skips_resize (s : ProgState) (i : FrameInput)
    (h : currentWidth s i = 0 ∨ currentHeight s i = 0) :
    (frame s i).1.canvasWidth = s.canvasWidth
    ∧ (frame s i).1.canvasHeight = s.canvasHeight
    ∧ (frame s i).1.depthTexture = s.depthTexture
    ∧ texturesCreated (frame s i).2 = []
    ∧ texturesDestroyed (frame s i).2 = [] := by
  have hnot : ¬ resizeNeeded s i := by
    unfold resizeNeeded
    rcases h with h | h <;> simp [h]
  rw [frame_fst, frame_snd]
  unfold resizedState resizeEffects
  rw [if_neg hnot, if_neg hnot]
  refine ⟨rfl, rfl, rfl, ?_, ?_⟩ <;> simp [texturesCreated, texturesDestroyed]

/-- C6 witness: with device pixel ratio 1, canvas at 100x100, and a client
size of 0x50, the frame leaves the canvas and depth texture unchanged and
creates no texture. -/
theorem frame_zero_client_size_skips_resize_witness :
    (currentWidth ⟨1, 100, 100, ⟨100, 100⟩, 1, Mat4.create, Mat4.create⟩ ⟨0, 50, 0⟩ = 0
      ∨ currentHeight ⟨1, 100, 100, ⟨100, 100⟩, 1, Mat4.create, Mat4.create⟩ ⟨0, 50, 0⟩ = 0)
    ∧ ((frame ⟨1, 100, 100, ⟨100, 100⟩, 1, Mat4.create, Mat4.create⟩ ⟨0, 50, 0⟩).1.canvasWidth = 100
      ∧ (frame ⟨1, 100, 100, ⟨100, 100⟩, 1, Mat4.create, Mat4.create⟩ ⟨0, 50, 0⟩).1.canvasHeight = 100
      ∧ (frame ⟨1, 100, 100, ⟨100, 100⟩, 1, Mat4.create, Mat4.create⟩ ⟨0, 50, 0⟩).1.depthTexture = ⟨100, 100⟩
      ∧ texturesCreated (frame ⟨1, 100, 100, ⟨100, 100⟩, 1, Mat4.create, Mat4.create⟩ ⟨0, 50, 0⟩).2 = []
      ∧ texturesDestroyed (frame ⟨1, 100, 100, ⟨100, 100⟩, 1, Mat4.create, Mat4.create⟩ ⟨0, 50, 0⟩).2 = []) := by
  constructor
  · left; simp [currentWidth]
  · exact frame_zero_client_size_skips_resize _ _ (by left; simp [currentWidth])

/-- C2: Every invocation of the per-frame callback writes the recomputed
4x4 model-view-projection matrix into the uniform buffer at offset 0, and
then submits exactly one command buffer containing exactly one draw call of
`cubeVertexCount` vertices: the trace is the resize effects (which contain
no buffer write and no submit) followed by exactly the uniform write, one
submit of one command buffer whose draws are exactly
`[cubeVertexCount]`, and the `requestAnimationFrame` call. -/
theorem frame_updates_matrix_then_submits_one_draw (s : ProgState) (i : FrameInput) :
    uniformWrites (frame s i).2
        = [(0, mat4ByteOffset, mat4ByteLength,
            getTransformationMatrix s.projectionMatrix i.dateNow)]
    ∧ (submitsOf (frame s i).2).map (fun bufs => bufs.map drawsOf) = [[[cubeVertexCount]]]
    ∧ (frame s i).2 = resizeEffects s i ++
        [Effect.writeBuffer BufferId.uniform 0 mat4ByteOffset mat4ByteLength
           (getTransformationMatrix s.projectionMatrix i.dateNow),
         Effect.submit [⟨[⟨⟨(resizedState s i).canvasWidth, (resizedState s i).canvasHeight⟩,
            (resizedState s i).depthTexture, 1, frameCmds⟩]⟩],
         Effect.requestAnimationFrame]
    ∧ uniformWrites (resizeEffects s i) = []
    ∧ submitsOf (resizeEffects s i) = [] := by
  have hp := resizedState_projectionMatrix s i
  have hw : uniformWrites (resizeEffects s i) = [] := by
    unfold resizeEffects uniformWrites; split <;> rfl
  have hsub : submitsOf (resizeEffects s i) = [] := by
    unfold resizeEffects submitsOf; split <;> rfl
  refine ⟨?_, ?_, ?_, hw, hsub⟩
  · rw [frame_snd, hp]
    unfold uniformWrites at hw ⊢
    rw [List.filterMap_append, hw]
    rfl
  · rw [frame_snd]
    unfold submitsOf at hsub ⊢
    rw [List.filterMap_append, hsub]
    simp [drawsOf, frameCmds]
  · rw [frame_snd, hp]

/-- C3 counterexample: after a setup at client size 100x100 with device
pixel ratio 1, a frame invocation at client size 200x100 destroys the
100x100 depth texture and creates a fresh 200x100 one, so the depth
texture — a GPU resource handle created by the program — does not have a
create-once-never-destroyed lifecycle. -/
theorem frame_destroys_and_recreates_depth_texture :
    texturesDestroyed (frame (setupState ⟨true, 100, 100, 1⟩) ⟨200, 100, 0⟩).2 = [⟨100, 100⟩]
    ∧ texturesCreated (frame (setupState ⟨true, 100, 100, 1⟩) ⟨200, 100, 0⟩).2 = [(200, 100)] := by
  rw [frame_snd]
  have hr : resizeNeeded (setupState ⟨true, 100, 100, 1⟩) ⟨200, 100, 0⟩ := by
    simp [resizeNeeded, currentWidth, currentHeight, setupState]
  unfold resizeEffects
  rw [if_pos hr]
  constructor <;> simp [texturesDestroyed, texturesCreated, setupState, currentWidth,
    currentHeight]

/-- C3 amended: every GPU resource handle created by the program except the
depth texture (buffers, shader module, pipeline, bind group) is created
exactly once during setup and never destroyed or recreated afterwards; the
depth texture is also created during setup, but `frame` destroys it and
creates a replacement exactly when the resize condition holds. -/
theorem resources_created_once_except_depth_texture (inp : SetupInput)
    (s : ProgState) (i : FrameInput) :
    (setupEffects inp).filter isResourceCreation
        = [Effect.createShaderModule,
           Effect.createBuffer BufferId.vertices cubeVertexArrayByteLength true,
           Effect.createRenderPipeline,
           Effect.createTexture (inp.clientWidth * inp.devicePixelRatio)
             (inp.clientHeight * inp.devicePixelRatio),
           Effect.createBuffer BufferId.uniform uniformBufferSize false,
           Effect.createBindGroup]
    ∧ (frame s i).2.filter isResourceCreation
        = (if resizeNeeded s i
            then [Effect.createTexture (currentWidth s i) (currentHeight s i)] else [])
    ∧ texturesDestroyed (frame s i).2
        = (if resizeNeeded s i then [s.depthTexture] else []) := by
  refine ⟨?_, ?_, ?_⟩
  · unfold setupEffects
    cases hg : inp.gpuAvailable <;> simp [isResourceCreation]
  · rw [frame_snd]
    unfold resizeEffects
    split <;> simp [isResourceCreation]
  · rw [frame_snd]
    unfold resizeEffects
    split <;> simp [texturesDestroyed]

/-- C5: If the graphics API is unavailable the program performs a single
check that only logs a console message; the check never stops execution
(whether setup succeeds is decided solely by whether some GPU operation
fails), and any failing creation thereafter propagates as an uncaught
error. -/
theorem gpu_check_only_logs (ok : GpuOp → Bool) (inp : SetupInput) :
    (setup ok inp = (match firstFailing ok with
      | none => .ok (setupState inp, setupEffects inp)
      | some op => .error op))
    ∧ ((setupEffects inp).filter (fun e =>
          match e with
          | .consoleError _ => true
          | _ => false)
        = (if inp.gpuAvailable then []
           else [Effect.consoleError "WebGPU is not supported in this browser."])) := by
  refine ⟨setup_eq ok inp, ?_⟩
  unfold setupEffects
  cases hg : inp.gpuAvailable <;> simp

lemma rafCount_resizeEffects (s : ProgState) (i : FrameInput) :
    rafCount (resizeEffects s i) = 0 := by
  unfold resizeEffects rafCount; split <;> rfl

lemma rafCount_frame (s : ProgState) (i : FrameInput) :
    rafCount (frame s i).2 = 1 := by
  have h := rafCount_resizeEffects s i
  rw [frame_snd]
  unfold rafCount at h ⊢
  rw [List.filter_append, List.length_append, h]
  rfl

/-- C7: The program runs on a single animation-callback loop: setup
schedules exactly one initial `frame` invocation via
`requestAnimationFrame`, every invocation of `frame` schedules exactly one
further invocation, and therefore — starting from the one callback pending
after setup — after any number of frame invocations exactly one animation
callback is pending. -/
theorem single_animation_callback_loop (inp : SetupInput) (s : ProgState)
    (inputs : List FrameInput) :
    rafCount (setupEffects inp) = 1
    ∧ (∀ s1 : ProgState, ∀ i : FrameInput, rafCount (frame s1 i).2 = 1)
    ∧ runPending 1 s inputs = 1 := by
  refine ⟨?_, fun s1 i => rafCount_frame s1 i, ?_⟩
  · unfold setupEffects rafCount
    cases hg : inp.gpuAvailable <;> rfl
  · induction inputs generalizing s with
    | nil => rfl
    | cons i rest ih =>
        unfold runPending
        rw [rafCount_frame]
        exact ih (frame s i).1

/-- C8: The cube geometry is static: the vertex data is uploaded into the
vertex buffer exactly once during setup — into the buffer mapped at
creation, which is then unmapped — and no invocation of `frame` ever
writes to the vertex buffer afterwards. -/
theorem vertex_buffer_written_only_at_setup (inp : SetupInput) (s : ProgState)
    (i : FrameInput) :
    (∃ pre post : List Effect,
      setupEffects inp
          = pre ++ [Effect.createBuffer BufferId.vertices cubeVertexArrayByteLength true,
                    Effect.writeMappedRange BufferId.vertices cubeVertexArrayByteLength,
                    Effect.unmapBuffer BufferId.vertices] ++ post
        ∧ pre.filter (writesTo BufferId.vertices) = []
        ∧ post.filter (writesTo BufferId.vertices) = [])
    ∧ (setupEffects inp).filter (writesTo BufferId.vertices)
        = [Effect.writeMappedRange BufferId.vertices cubeVertexArrayByteLength]
    ∧ (frame s i).2.filter (writesTo BufferId.vertices) = [] := by
  refine ⟨⟨(if inp.gpuAvailable then []
      else [Effect.consoleError "WebGPU is not supported in this browser."]) ++
      [Effect.requestAdapter, Effect.requestDevice,
       Effect.loadFile "./shaders/cube.wgsl", Effect.createShaderModule,
       Effect.configureContext],
    [Effect.createRenderPipeline,
     Effect.createTexture (inp.clientWidth * inp.devicePixelRatio)
       (inp.clientHeight * inp.devicePixelRatio),
     Effect.createBuffer BufferId.uniform uniformBufferSize false,
     Effect.createBindGroup, Effect.requestAnimationFrame], ?_, ?_, ?_⟩, ?_, ?_⟩
  · unfold setupEffects; simp
  · cases hg : inp.gpuAvailable <;> rfl
  · rfl
  · unfold setupEffects
    cases hg : inp.gpuAvailable <;> rfl
  · rw [frame_snd]
    unfold resizeEffects
    split <;> rfl

/-- C9: The projection matrix is computed exactly once at startup, by the
single `mat4.perspective` call applied to the initial aspect ratio, and is
never recomputed: `frame` leaves `projectionMatrix` unchanged (even though
it reassigns `aspect` on resize), the per-frame computation contains no
`mat4.perspective` call, and the model-view-projection matrix written every
frame multiplies the startup projection with the view matrix. -/
theorem projection_matrix_computed_once (inp : SetupInput) (s : ProgState)
    (i : FrameInput) :
    (setupState inp).projectionMatrix
        = initialProjection ((inp.clientWidth * inp.devicePixelRatio)
            / (inp.clientHeight * inp.devicePixelRatio))
    ∧ (frame s i).1.projectionMatrix = s.projectionMatrix
    ∧ (frame s i).1.aspect
        = (if resizeNeeded s i then currentWidth s i / currentHeight s i else s.aspect)
    ∧ uniformWrites (frame s i).2
        = [(0, mat4ByteOffset, mat4ByteLength,
            Mat4.multiply s.projectionMatrix
              (Mat4.rotate
                (Mat4.translate Mat4.identity ⟨Scalar.q 0, Scalar.q 0, Scalar.q (-4)⟩)
                ⟨Scalar.sin (i.dateNow / 1000), Scalar.cos (i.dateNow / 1000), Scalar.q 0⟩
                1))]
    ∧ Mat4.perspectiveCount (getTransformationMatrix s.projectionMatrix i.dateNow)
        = Mat4.perspectiveCount s.projectionMatrix := by
  refine ⟨rfl, ?_, ?_, ?_, ?_⟩
  · rw [frame_fst]
    exact resizedState_projectionMatrix s i
  · rw [frame_fst]
    unfold resizedState
    split <;> rfl
  · have hp := resizedState_projectionMatrix s i
    have hw : uniformWrites (resizeEffects s i) = [] := by
      unfold resizeEffects uniformWrites; split <;> rfl
    rw [frame_snd, hp]
    unfold uniformWrites at hw ⊢
    rw [List.filterMap_append, hw]
    rfl
  · simp [getTransformationMatrix, Mat4.perspectiveCount]

/-- C10: The uniform buffer is allocated with size `4 * 16 = 64` bytes,
exactly the byte length of the 4x4 float32 transformation matrix; every
invocation of `frame` performs exactly one write to it, at buffer offset 0
with the full 64 bytes of the matrix, so the write stays within the buffer
bounds and fills it completely. -/
theorem uniform_write_fills_buffer_exactly (inp : SetupInput) (s : ProgState)
    (i : FrameInput) :
    uniformBufferSize = 64
    ∧ mat4ByteLength = 64
    ∧ Effect.createBuffer BufferId.uniform uniformBufferSize false ∈ setupEffects inp
    ∧ (uniformWrites (frame s i).2).map (fun w => (w.1, w.2.2.1))
        = [(0, mat4ByteLength)]
    ∧ 0 + mat4ByteLength = uniformBufferSize := by
  refine ⟨rfl, rfl, ?_, ?_, rfl⟩
  · unfold setupEffects
    cases hg : inp.gpuAvailable <;> simp
  · have hw : uniformWrites (resizeEffects s i) = [] := by
      unfold resizeEffects uniformWrites; split <;> rfl
    rw [frame_snd]
    unfold uniformWrites at hw ⊢
    rw [List.filterMap_append, hw]
    rfl
